import Mathlib

/-
Verification development for the task-sync-api repository (Go).

The definitions below are a shallow embedding of the repository's core:
the sync queue and sync engine in internal/services/sync_service.go, the
models in internal/models, the task service (CreateTask/UpdateTask/
DeleteTask) and the sync HTTP handler.  SQLite tables are embedded as
Lean lists held in a `DBState`; SQL statements become list operations;
`database/sql` transactions become all-or-nothing state updates where an
injected fault marks which statement of the transaction failed (a failed
statement triggers the deferred Rollback, discarding every pending write
of that transaction).  `time.Now()` is passed explicitly as a `Nat`
timestamp.  JSON (un)marshalling of a task snapshot is embedded by its
decode result: `taskData : Option Task`, where `none` models a stored
snapshot that `json.Unmarshal` rejects.  The simulated remote server
(`syncToServer`, which fails nondeterministically based on the clock) is
embedded as an explicit authority oracle returning Go's
`(success : Bool, err : Option String)` pair.
-/

namespace TaskSync

/-- models.SyncStatus: per-task sync state (`pending|synced|error`). -/
inductive SyncStatus where
  | pending
  | synced
  | error
deriving DecidableEq, Repr

/-- models.OperationType: kind of a queued operation (`create|update|delete`). -/
inductive OperationType where
  | create
  | update
  | delete
deriving DecidableEq, Repr

/-- models.Task: one row of the `tasks` table.  Timestamps are `Nat`. -/
structure Task where
  id : String
  title : String
  description : Option String
  completed : Bool
  isDeleted : Bool
  syncStatus : SyncStatus
  serverId : Option String
  lastSyncedAt : Option Nat
  createdAt : Nat
  updatedAt : Nat
deriving DecidableEq, Repr

/-- models.SyncQueueItem: one row of the `sync_queue` table.  The Go field
`TaskData string` (a JSON snapshot) is embedded by its decode result:
`some task` when `json.Unmarshal` succeeds, `none` when it fails. -/
structure SyncQueueItem where
  id : Nat
  taskId : String
  operationType : OperationType
  taskData : Option Task
  retryCount : Nat
  createdAt : Nat
  lastAttempt : Option Nat
  errorMessage : Option String
deriving DecidableEq, Repr

/-- The two SQLite tables the core touches.  Both lists are kept in rowid /
insertion order; `sync_queue.created_at` is assigned from a monotone clock at
insertion, so `ORDER BY created_at ASC` coincides with this list order. -/
structure DBState where
  tasks : List Task
  queue : List SyncQueueItem
deriving DecidableEq, Repr

/-- config.Config (the fields the sync core reads).  Retry counts are
non-negative and the configuration contract has `maxRetries >= 0`, so both
are `Nat`. -/
structure Config where
  maxRetries : Nat
  syncBatchSize : Nat
deriving DecidableEq, Repr

/-- models.SyncQueueItem.GetTaskData: json.Unmarshal of the stored snapshot. -/
def SyncQueueItem.GetTaskData (sq : SyncQueueItem) : Option Task :=
  sq.taskData

/-- models.SyncQueueItem.IncrementRetry. -/
def SyncQueueItem.IncrementRetry (sq : SyncQueueItem) (now : Nat) (errorMsg : String) :
    SyncQueueItem :=
  { sq with retryCount := sq.retryCount + 1, lastAttempt := some now,
            errorMessage := some errorMsg }

/-- An SQL `UPDATE tasks SET ... WHERE id = tid`, with `f` the SET clause. -/
def updateTaskRow (tasks : List Task) (tid : String) (f : Task → Task) : List Task :=
  tasks.map (fun t => if t.id = tid then f t else t)

/-- SyncService.markTaskAsError: `UPDATE tasks SET sync_status = 'error' WHERE id = ?`. -/
def markTaskAsError (st : DBState) (taskId : String) : DBState :=
  { st with tasks := (updateTaskRow st.tasks taskId
      (fun t => { t with syncStatus := SyncStatus.error })) }

/-- SyncService.handleSyncError.  `writeOk` is whether the `UPDATE sync_queue`
statement succeeds (on failure Go returns the error before touching the task).
The retry bookkeeping row update writes the in-memory incremented values; if
the incremented count reaches `maxRetries` the owning task is marked `error`
(a failure of that second write is only logged in Go, so it is embedded as
applied). -/
def handleSyncError (cfg : Config) (now : Nat) (writeOk : Bool) (st : DBState)
    (item : SyncQueueItem) (syncErr : Option String) : Except String DBState :=
  let errorMsg := syncErr.getD "unknown error"
  let item2 := item.IncrementRetry now errorMsg
  if !writeOk then Except.error "failed to update sync queue item"
  else
    let st2 : DBState := { st with queue := (st.queue.map (fun q =>
      if q.id = item.id then
        { q with retryCount := item2.retryCount, lastAttempt := item2.lastAttempt,
                 errorMessage := item2.errorMessage }
      else q)) }
    if cfg.maxRetries ≤ item2.retryCount then
      Except.ok (markTaskAsError st2 item.taskId)
    else
      Except.ok st2

/-- Which statement of the markAsSynced transaction fails, if any.  Go runs,
inside one transaction with a deferred Rollback: the `UPDATE tasks` statement,
then the `DELETE FROM sync_queue` statement, then `Commit`; an error at any of
the three discards every pending write of the transaction. -/
inductive TxFault where
  | ok
  | atTaskUpdate
  | atQueueDelete
  | atCommit
deriving DecidableEq, Repr

/-- SyncService.markAsSynced: in one transaction, set the task (keyed by the
snapshot's id) to `synced` with `last_synced_at = now` and `server_id` the
snapshot id, and delete the queue entry (keyed by the entry's id).  A fault at
any statement rolls the whole transaction back, yielding an error and no state. -/
def markAsSynced (fault : TxFault) (now : Nat) (st : DBState) (item : SyncQueueItem)
    (task : Task) : Except String DBState :=
  match fault with
  | TxFault.atTaskUpdate => Except.error "failed to update task sync status"
  | TxFault.atQueueDelete => Except.error "failed to remove from sync queue"
  | TxFault.atCommit => Except.error "commit failed"
  | TxFault.ok =>
      Except.ok
        { tasks := (updateTaskRow st.tasks task.id
            (fun t => { t with syncStatus := SyncStatus.synced,
                               lastSyncedAt := some now,
                               serverId := some task.id })),
          queue := st.queue.filter (fun q => decide (q.id ≠ item.id)) }

/-- Environment of one processing pass: the clock, the remote authority
(SyncService.syncToServer's `(success, err)` outcome per delivery), and the
injected store faults per item. -/
structure PassEnv where
  now : Nat
  authority : OperationType → Task → Bool × Option String
  markFault : SyncQueueItem → TxFault
  retryWriteOk : SyncQueueItem → Bool

/-- SyncService.processSyncItem.  Returns the item's effect on the store
(`Except`, error meaning the store is left as the caller had it) together with
the trace of remote-authority invocations this item caused (empty when the
snapshot does not decode, since Go returns before calling syncToServer). -/
def processSyncItem (cfg : Config) (env : PassEnv) (st : DBState) (item : SyncQueueItem) :
    Except String DBState × List (OperationType × Task) :=
  match item.GetTaskData with
  | none => (Except.error "failed to parse task data", [])
  | some task =>
      let res := env.authority item.operationType task
      if res.2.isSome || !res.1 then
        (handleSyncError cfg env.now (env.retryWriteOk item) st item res.2,
         [(item.operationType, task)])
      else
        (markAsSynced (env.markFault item) env.now st item task,
         [(item.operationType, task)])

/-- The batch query of SyncService.ProcessSyncQueue:
`SELECT ... FROM sync_queue WHERE retry_count < ? ORDER BY created_at ASC LIMIT ?`
with parameters `cfg.maxRetries` and `cfg.syncBatchSize`. -/
def selectBatch (cfg : Config) (queue : List SyncQueueItem) : List SyncQueueItem :=
  (queue.filter (fun q => decide (q.retryCount < cfg.maxRetries))).take cfg.syncBatchSize

/-- On a per-item error Go only logs and keeps going, so the caller's state
is retained. -/
def stepOk (st : DBState) (r : Except String DBState) : DBState :=
  match r with
  | Except.ok s => s
  | Except.error _ => st

/-- The processing loop of SyncService.ProcessSyncQueue over the batch read at
the start of the pass: each item is processed against the current store; an
item error is logged and the loop continues.  Also accumulates the delivery
trace. -/
def processPassItems (cfg : Config) (env : PassEnv) :
    DBState → List SyncQueueItem → DBState × List (OperationType × Task)
  | st, [] => (st, [])
  | st, item :: rest =>
      let pr := processSyncItem cfg env st item
      let out := processPassItems cfg env (stepOk st pr.1) rest
      (out.1, pr.2 ++ out.2)

/-- SyncService.ProcessSyncQueue.  `queryOk` is whether the initial
`sync_queue` SELECT succeeds; on failure the pass aborts with an error and
nothing is processed.  Otherwise the pass returns `ok` (per-item failures are
logged inside the loop, never returned). -/
def ProcessSyncQueue (cfg : Config) (env : PassEnv) (queryOk : Bool) (st : DBState) :
    Except String (DBState × List (OperationType × Task)) :=
  match queryOk with
  | false => Except.error "failed to query sync queue"
  | true => Except.ok (processPassItems cfg env st (selectBatch cfg st.queue))

/-- One pass as a state transformer (an aborted pass leaves the store as is). -/
def runPass (cfg : Config) (env : PassEnv) (st : DBState) : DBState :=
  match ProcessSyncQueue cfg env true st with
  | Except.ok out => out.1
  | Except.error _ => st

/-- `n` repeated processing passes. -/
def iterPass (cfg : Config) (env : PassEnv) : Nat → DBState → DBState
  | 0, st => st
  | n + 1, st => iterPass cfg env n (runPass cfg env st)

/-- SyncHandler.TriggerSync: calls ProcessSyncQueue; 500 with the error text
when it fails, 200 with a success message otherwise. -/
def TriggerSync (cfg : Config) (env : PassEnv) (queryOk : Bool) (st : DBState) :
    Nat × String :=
  match ProcessSyncQueue cfg env queryOk st with
  | Except.error e => (500, e)
  | Except.ok _ => (200, "sync completed successfully")

/-- `SELECT MAX(last_synced_at) FROM tasks WHERE last_synced_at IS NOT NULL`. -/
def maxLastSynced (tasks : List Task) : Option Nat :=
  tasks.foldl
    (fun acc t =>
      match t.lastSyncedAt with
      | none => acc
      | some v =>
          match acc with
          | none => some v
          | some m => some (max m v))
    none

/-- services.SyncStatus: the aggregate returned by GetSyncStatus.  The Go
struct's `LastSync` field is a plain `time.Time` (embedded as `Nat`), with no
way to express absence. -/
structure SyncStatusReport where
  pendingCount : Nat
  errorCount : Nat
  lastSync : Nat
  inProgress : Bool
deriving DecidableEq, Repr

/-- SyncService.GetSyncStatus.  When no task has a `last_synced_at`, Go falls
back to `time.Unix(0, 0)` (the epoch, embedded as 0); when one exists the MAX
is parsed back (a parse failure also falls back to the epoch; the embedding
takes the parsed value, which claims here only exercise at the epoch itself).
`InProgress` is the literal `false` in the Go source. -/
def GetSyncStatus (cfg : Config) (st : DBState) : SyncStatusReport :=
  { pendingCount :=
      (st.queue.filter (fun q => decide (q.retryCount < cfg.maxRetries))).length,
    errorCount :=
      (st.tasks.filter (fun t => decide (t.syncStatus = SyncStatus.error))).length,
    lastSync := (maxLastSynced st.tasks).getD 0,
    inProgress := false }

/-- SyncService.ResolveConflicts: the Go body only writes a log line
("Conflict resolution completed using last-write-wins strategy") and returns
nil; it reads neither the tasks nor the queue and performs no write. -/
def ResolveConflicts (st : DBState) : Except String DBState :=
  Except.ok st

/-- models.CreateTaskRequest. -/
structure CreateTaskRequest where
  title : String
  description : Option String
deriving DecidableEq, Repr

/-- models.UpdateTaskRequest. -/
structure UpdateTaskRequest where
  title : Option String
  description : Option String
  completed : Option Bool
deriving DecidableEq, Repr

/-- models.NewTask.  The uuid and the clock are passed in explicitly. -/
def NewTask (id : String) (now : Nat) (title : String) (description : Option String) :
    Task :=
  { id := id, title := title, description := description, completed := false,
    isDeleted := false, syncStatus := SyncStatus.pending, serverId := none,
    lastSyncedAt := none, createdAt := now, updatedAt := now }

/-- models.Task.Update: apply the non-nil request fields, refresh updated_at
and reset sync state to pending. -/
def Task.Update (t : Task) (now : Nat) (req : UpdateTaskRequest) : Task :=
  let t1 := match req.title with
    | some v => { t with title := v }
    | none => t
  let t2 := match req.description with
    | some v => { t1 with description := some v }
    | none => t1
  let t3 := match req.completed with
    | some v => { t2 with completed := v }
    | none => t2
  { t3 with updatedAt := now, syncStatus := SyncStatus.pending }

/-- models.Task.SoftDelete. -/
def Task.SoftDelete (t : Task) (now : Nat) : Task :=
  { t with isDeleted := true, updatedAt := now, syncStatus := SyncStatus.pending }

/-- The rowid SQLite assigns to a fresh `sync_queue` insert. -/
def nextQueueId (queue : List SyncQueueItem) : Nat :=
  queue.foldl (fun m q => max m q.id) 0 + 1

/-- models.NewSyncQueueItem: json.Marshal of a live task never fails, so the
stored snapshot decodes back (`taskData := some task`); retryCount starts 0. -/
def NewSyncQueueItem (qid : Nat) (taskId : String) (opType : OperationType)
    (task : Task) (now : Nat) : SyncQueueItem :=
  { id := qid, taskId := taskId, operationType := opType, taskData := some task,
    retryCount := 0, createdAt := now, lastAttempt := none, errorMessage := none }

/-- SyncService.AddToQueueTx: `INSERT INTO sync_queue ...` inside the caller's
transaction. -/
def AddToQueueTx (tx : DBState) (taskId : String) (opType : OperationType)
    (task : Task) (now : Nat) : DBState :=
  { tx with queue := tx.queue ++ [NewSyncQueueItem (nextQueueId tx.queue) taskId opType task now] }

/-- TaskService.GetTaskByID: `SELECT ... FROM tasks WHERE id = ? AND is_deleted = 0`. -/
def GetTaskByID (st : DBState) (id : String) : Except String Task :=
  match st.tasks.find? (fun t => decide (t.id = id) && !t.isDeleted) with
  | none => Except.error "task not found"
  | some t => Except.ok t

/-- Which statement of a task-mutation transaction fails, if any: the task
row write, the sync-queue insert, or the final commit.  Each mutation runs
its task write and its AddToQueueTx in one transaction with a deferred
Rollback, so any fault discards every pending write. -/
inductive MutFault where
  | ok
  | atTaskWrite
  | atQueueInsert
  | atCommit
deriving DecidableEq, Repr

/-- TaskService.CreateTask: insert the new task row and its `create` queue
entry in one transaction. -/
def CreateTask (fault : MutFault) (now : Nat) (newId : String)
    (req : CreateTaskRequest) (st : DBState) : Except String (DBState × Task) :=
  let task := NewTask newId now req.title req.description
  if fault = MutFault.atTaskWrite then Except.error "failed to insert task"
  else
    let tx1 : DBState := { st with tasks := st.tasks ++ [task] }
    if fault = MutFault.atQueueInsert then Except.error "failed to add to sync queue"
    else
      let tx2 := AddToQueueTx tx1 task.id OperationType.create task now
      if fault = MutFault.atCommit then Except.error "failed to commit transaction"
      else Except.ok (tx2, task)

/-- TaskService.UpdateTask: read the live task (the read runs outside the
transaction in Go), apply the request, write the row
(`UPDATE tasks SET ... WHERE id = ? AND is_deleted = 0`) and the `update`
queue entry in one transaction. -/
def UpdateTask (fault : MutFault) (now : Nat) (id : String)
    (req : UpdateTaskRequest) (st : DBState) : Except String (DBState × Task) :=
  match GetTaskByID st id with
  | Except.error e => Except.error e
  | Except.ok task0 =>
      let task := task0.Update now req
      if fault = MutFault.atTaskWrite then Except.error "failed to update task"
      else
        let tx1 : DBState := { st with tasks := (st.tasks.map (fun t =>
          if decide (t.id = id) && !t.isDeleted then
            { t with title := task.title, description := task.description,
                     completed := task.completed, updatedAt := task.updatedAt,
                     syncStatus := task.syncStatus }
          else t)) }
        if fault = MutFault.atQueueInsert then Except.error "failed to add to sync queue"
        else
          let tx2 := AddToQueueTx tx1 task.id OperationType.update task now
          if fault = MutFault.atCommit then Except.error "failed to commit transaction"
          else Except.ok (tx2, task)

/-- TaskService.DeleteTask: read the live task, soft-delete the row
(`UPDATE tasks SET is_deleted = 1, ... WHERE id = ?`) and insert the `delete`
queue entry in one transaction. -/
def DeleteTask (fault : MutFault) (now : Nat) (id : String) (st : DBState) :
    Except String DBState :=
  match GetTaskByID st id with
  | Except.error e => Except.error e
  | Except.ok task0 =>
      let task := task0.SoftDelete now
      if fault = MutFault.atTaskWrite then Except.error "failed to delete task"
      else
        let tx1 : DBState := { st with tasks := (st.tasks.map (fun t =>
          if t.id = id then
            { t with isDeleted := true, updatedAt := task.updatedAt,
                     syncStatus := task.syncStatus }
          else t)) }
        if fault = MutFault.atQueueInsert then Except.error "failed to add to sync queue"
        else
          let tx2 := AddToQueueTx tx1 task.id OperationType.delete task now
          if fault = MutFault.atCommit then Except.error "failed to commit transaction"
          else Except.ok tx2

/-- The store a caller is left with after a mutation returning a task: on a
rolled-back (error) result the caller keeps its previous store. -/
def applyMut (st : DBState) (r : Except String (DBState × Task)) : DBState :=
  match r with
  | Except.ok out => out.1
  | Except.error _ => st

/-- The store a caller is left with after DeleteTask. -/
def applyDel (st : DBState) (r : Except String DBState) : DBState :=
  match r with
  | Except.ok s => s
  | Except.error _ => st

/-- The test configuration (MaxRetries 3, batch 50 as in config defaults). -/
def cfg3 : Config := { maxRetries := 3, syncBatchSize := 50 }

/-- A configuration with maxRetries = 0 (permitted: the contract only asks
for an integer >= 0). -/
def cfg0 : Config := { maxRetries := 0, syncBatchSize := 50 }

/-- A pass environment where every delivery succeeds and every store write
succeeds. -/
def envOk : PassEnv :=
  { now := 10, authority := fun _ _ => (true, none),
    markFault := fun _ => TxFault.ok, retryWriteOk := fun _ => true }

/-- Task t1 as created at time 1 with title "A". -/
def taskA : Task := NewTask "t1" 1 "A" none

/-- Task t1 after a local title update to "B" at time 2. -/
def snapB : Task := { taskA with title := "B", updatedAt := 2 }

/-- Queue entry 1: the create of t1, carrying its snapshot at creation. -/
def eCreate : SyncQueueItem := NewSyncQueueItem 1 "t1" OperationType.create taskA 1

/-- Queue entry 2: the later update of t1, carrying the newer snapshot. -/
def eUpdate : SyncQueueItem := NewSyncQueueItem 2 "t1" OperationType.update snapB 2

/-- Store with t1 mutated twice before any sync: the row holds the latest
local state and two queue entries are outstanding. -/
def stTwo : DBState := { tasks := [snapB], queue := [eCreate, eUpdate] }

/-- A queue entry whose stored snapshot does not decode. -/
def eBadItem : SyncQueueItem :=
  { id := 7, taskId := "t9", operationType := OperationType.update, taskData := none,
    retryCount := 0, createdAt := 3, lastAttempt := none, errorMessage := none }

/-- A store whose only queue entry carries an undecodable snapshot. -/
def stBadQueue : DBState := { tasks := [taskA], queue := [eBadItem] }

/-- Snapshot of t1 carried by a queued update, updated_at = 5. -/
def snapU5 : Task := { taskA with updatedAt := 5 }

/-- Snapshot of t1 carried by a queued delete, same updated_at = 5. -/
def snapD5 : Task := { taskA with isDeleted := true, updatedAt := 5 }

/-- The queued update with the tied timestamp. -/
def eUpd5 : SyncQueueItem := NewSyncQueueItem 1 "t1" OperationType.update snapU5 4

/-- The queued delete with the tied timestamp. -/
def eDel5 : SyncQueueItem := NewSyncQueueItem 2 "t1" OperationType.delete snapD5 5

/-- A store holding an equal-timestamp update/delete pair for the same task. -/
def conflictState : DBState := { tasks := [taskA], queue := [eUpd5, eDel5] }

/-- The empty store: no task has ever synced. -/
def stEmptyDB : DBState := { tasks := [], queue := [] }

/-- A task that genuinely synced at the epoch (time 0). -/
def taskEpoch : Task :=
  { taskA with id := "te", syncStatus := SyncStatus.synced, lastSyncedAt := some 0 }

/-- A store whose one task synced at the epoch. -/
def stEpochDB : DBState := { tasks := [taskEpoch], queue := [] }

/-- A queue entry one failure away from the retry limit of cfg3. -/
def eFail : SyncQueueItem := { eCreate with retryCount := 2 }

/-- Store holding t1 pending with the almost-exhausted entry queued. -/
def stFail : DBState := { tasks := [taskA], queue := [eFail] }

/-- Task t1 once marked `error`. -/
def taskErr : Task := { taskA with syncStatus := SyncStatus.error }

/-- Request used by the mutation-atomicity witness. -/
def creqW : CreateTaskRequest := { title := "T", description := none }

/-- Update request used by the mutation-atomicity witness. -/
def ureqW : UpdateTaskRequest := { title := some "T2", description := none, completed := none }

theorem processSyncItem_snd (cfg : Config) (env : PassEnv) (st : DBState)
    (item : SyncQueueItem) :
    (processSyncItem cfg env st item).2 =
      (item.taskData.map (fun t => (item.operationType, t))).toList := by
  cases htd : item.taskData with
  | none => simp [processSyncItem, SyncQueueItem.GetTaskData, htd]
  | some t =>
      simp only [processSyncItem, SyncQueueItem.GetTaskData, htd, Option.map_some]
      split
      · rfl
      · rfl

theorem processPassItems_snd (cfg : Config) (env : PassEnv)
    (items : List SyncQueueItem) :
    ∀ st : DBState, (processPassItems cfg env st items).2 =
      items.filterMap (fun q => q.taskData.map (fun t => (q.operationType, t))) := by
  induction items with
  | nil => intro st; rfl
  | cons a l ih =>
      intro st
      simp only [processPassItems, List.filterMap_cons]
      rw [processSyncItem_snd, ih]
      cases a.taskData with
      | none => simp
      | some t => simp

theorem processSyncItem_undecodable (cfg : Config) (env : PassEnv) (st : DBState)
    (item : SyncQueueItem) (h : item.taskData = none) :
    processSyncItem cfg env st item = (Except.error "failed to parse task data", []) := by
  simp [processSyncItem, SyncQueueItem.GetTaskData, h]

theorem processPassItems_all_undecodable (cfg : Config) (env : PassEnv)
    (items : List SyncQueueItem) (h : ∀ q ∈ items, q.taskData = none) :
    ∀ st : DBState, processPassItems cfg env st items = (st, []) := by
  induction items with
  | nil => intro st; rfl
  | cons a l ih =>
      intro st
      have ha : a.taskData = none := h a (List.mem_cons_self a l)
      have hl : ∀ q ∈ l, q.taskData = none := fun q hq => h q (List.mem_cons_of_mem a hq)
      simp [processPassItems, processSyncItem_undecodable cfg env st a ha, stepOk, ih hl]

theorem mem_selectBatch (cfg : Config) (queue : List SyncQueueItem)
    (q : SyncQueueItem) (h : q ∈ selectBatch cfg queue) : q ∈ queue :=
  List.mem_of_mem_filter (List.mem_of_mem_take h)

theorem runPass_all_undecodable (cfg : Config) (env : PassEnv) (st : DBState)
    (h : ∀ q ∈ st.queue, q.taskData = none) : runPass cfg env st = st := by
  have hb : ∀ q ∈ selectBatch cfg st.queue, q.taskData = none :=
    fun q hq => h q (mem_selectBatch cfg st.queue q hq)
  simp [runPass, ProcessSyncQueue,
        processPassItems_all_undecodable cfg env (selectBatch cfg st.queue) hb st]

theorem iterPass_all_undecodable (cfg : Config) (env : PassEnv) (st : DBState)
    (h : ∀ q ∈ st.queue, q.taskData = none) :
    ∀ n : Nat, iterPass cfg env n st = st := by
  intro n
  induction n with
  | zero => rfl
  | succ n ih => simp [iterPass, runPass_all_undecodable cfg env st h, ih]

theorem selectBatch_zero (cfg : Config) (h : cfg.maxRetries = 0)
    (queue : List SyncQueueItem) : selectBatch cfg queue = [] := by
  have hf : queue.filter (fun q => decide (q.retryCount < cfg.maxRetries)) = [] := by
    rw [List.filter_eq_nil_iff]
    intro q _
    simp [h]
  simp [selectBatch, hf]

theorem foldl_lastSynced_acc :
    ∀ l : List Task, (∀ t ∈ l, t.lastSyncedAt = none) → ∀ acc : Option Nat,
      l.foldl (fun acc t =>
        match t.lastSyncedAt with
        | none => acc
        | some v =>
            match acc with
            | none => some v
            | some m => some (max m v)) acc = acc := by
  intro l
  induction l with
  | nil => intro _ acc; rfl
  | cons a l ih =>
      intro h acc
      have ha : a.lastSyncedAt = none := h a (List.mem_cons_self a l)
      have hl : ∀ t ∈ l, t.lastSyncedAt = none := fun t ht => h t (List.mem_cons_of_mem a ht)
      simp only [List.foldl_cons, ha]
      exact ih hl acc

theorem maxLastSynced_eq_none (l : List Task) (h : ∀ t ∈ l, t.lastSyncedAt = none) :
    maxLastSynced l = none :=
  foldl_lastSynced_acc l h none

theorem mem_map_upd {α : Type} (p : α → Prop) [DecidablePred p] (g : α → α)
    (l : List α) (x : α)
    (hx : x ∈ l.map (fun u => if p u then g u else u)) :
    (∃ u, u ∈ l ∧ p u ∧ x = g u) ∨ (x ∈ l ∧ ¬ p x) := by
  rw [List.mem_map] at hx
  obtain ⟨u, hu, hux⟩ := hx
  by_cases h : p u
  · left
    refine ⟨u, hu, h, ?_⟩
    rw [← hux, if_pos h]
  · right
    have hxu : x = u := by rw [← hux, if_neg h]
    subst hxu
    exact ⟨hu, h⟩

theorem map_upd_key {α β : Type} (key : α → β) (p : α → Prop) [DecidablePred p]
    (g : α → α) (hg : ∀ u, key (g u) = key u) (l : List α) :
    (l.map (fun u => if p u then g u else u)).map key = l.map key := by
  induction l with
  | nil => rfl
  | cons a l ih =>
      simp only [List.map_cons, ih]
      by_cases h : p a
      · rw [if_pos h, hg]
      · rw [if_neg h]

/-- Claim C2 (code bug): ResolveConflicts resolves nothing.  It is the
identity on every store, and in particular leaves the equal-timestamp
update/delete pair queued for task t1 untouched, selecting neither operation,
although the repository's README and the function's own log line state that
last-write-wins resolution is implemented.  The claim's required outcome
(the delete wins the tie) is not produced anywhere. -/
theorem resolveConflicts_is_noop :
    (∀ s : DBState, ResolveConflicts s = Except.ok s)
    ∧ eUpd5.taskId = eDel5.taskId
    ∧ eUpd5.operationType = OperationType.update
    ∧ eDel5.operationType = OperationType.delete
    ∧ eUpd5.taskData = some snapU5
    ∧ eDel5.taskData = some snapD5
    ∧ snapU5.updatedAt = snapD5.updatedAt
    ∧ ResolveConflicts conflictState = Except.ok conflictState :=
  ⟨fun _ => rfl, rfl, rfl, rfl, rfl, rfl, rfl, rfl⟩

/-- Claim C7: per-entry errors are contained.  Whatever per-item outcomes the
environment produces (undecodable snapshots, delivery failures, failed retry
bookkeeping or mark-synced writes), a pass over a readable queue returns
success; ProcessSyncQueue returns an error exactly when the queue itself
cannot be read, and TriggerSync answers 200 respectively 500 accordingly. -/
theorem processQueue_error_containment (cfg : Config) (env : PassEnv) (st : DBState) :
    (∃ out, ProcessSyncQueue cfg env true st = Except.ok out)
    ∧ (∃ e, ProcessSyncQueue cfg env false st = Except.error e)
    ∧ TriggerSync cfg env true st = (200, "sync completed successfully")
    ∧ (TriggerSync cfg env false st).1 = 500 :=
  ⟨⟨_, rfl⟩, ⟨_, rfl⟩, rfl, rfl⟩

/-- Claim C10: with maxRetries = 0 the batch query selects nothing, so a pass
returns success with an empty delivery trace and an unchanged store, and any
number of repeated passes still leaves the store (queue and tasks) exactly as
it was: nothing is ever delivered, no task reaches `error`, the queue never
drains. -/
theorem maxRetriesZero_pass_inert (cfg : Config) (env : PassEnv) (st : DBState)
    (h : cfg.maxRetries = 0) :
    ProcessSyncQueue cfg env true st = Except.ok (st, [])
    ∧ ∀ n : Nat, iterPass cfg env n st = st := by
  have hsel : selectBatch cfg st.queue = [] := selectBatch_zero cfg h st.queue
  have hone : ProcessSyncQueue cfg env true st = Except.ok (st, []) := by
    simp [ProcessSyncQueue, hsel, processPassItems]
  refine ⟨hone, ?_⟩
  intro n
  induction n with
  | zero => rfl
  | succ n ih =>
      have hrp : runPass cfg env st = st := by
        simp [runPass, hone]
      simp [iterPass, hrp, ih]

/-- Witness for C10 at maxRetries = 0 on a concrete two-entry queue. -/
theorem maxRetriesZero_pass_inert_witness :
    ProcessSyncQueue cfg0 envOk true stTwo = Except.ok (stTwo, [])
    ∧ iterPass cfg0 envOk 5 stTwo = stTwo :=
  ⟨(maxRetriesZero_pass_inert cfg0 envOk stTwo rfl).1,
   (maxRetriesZero_pass_inert cfg0 envOk stTwo rfl).2 5⟩

/-- Claim C9: an entry whose stored snapshot does not decode is processed to
an error before any store write, so processing it changes nothing (no retry
increment, no lastAttempt, no error message); consequently, on a queue of
such entries, every repeated pass leaves the store identical — the batch
query selects the same entries forever and no task ever moves to `error`
on their account. -/
theorem undecodable_entry_inert (cfg : Config) (env : PassEnv) (st : DBState)
    (item : SyncQueueItem) :
    (item.taskData = none →
       processSyncItem cfg env st item = (Except.error "failed to parse task data", []))
    ∧ ((∀ q ∈ st.queue, q.taskData = none) → ∀ n : Nat,
         iterPass cfg env n st = st
         ∧ selectBatch cfg (iterPass cfg env n st).queue = selectBatch cfg st.queue
         ∧ (iterPass cfg env n st).tasks = st.tasks) := by
  constructor
  · intro h
    exact processSyncItem_undecodable cfg env st item h
  · intro h n
    have hid := iterPass_all_undecodable cfg env st h n
    exact ⟨hid, by rw [hid], by rw [hid]⟩

/-- Witness for C9 on a concrete store with one undecodable entry. -/
theorem undecodable_entry_inert_witness :
    processSyncItem cfg3 envOk stBadQueue eBadItem
      = (Except.error "failed to parse task data", [])
    ∧ iterPass cfg3 envOk 4 stBadQueue = stBadQueue :=
  ⟨(undecodable_entry_inert cfg3 envOk stBadQueue eBadItem).1 rfl,
   ((undecodable_entry_inert cfg3 envOk stBadQueue eBadItem).2 (by decide) 4).1⟩

/-- Claim C3 counterexample: with maxRetries 3 and batch 50 the pass over
stBadQueue selects its single eligible entry, yet the delivery trace is
empty — the selected entry is never handed to the remote authority because
its snapshot does not decode, refuting "selects exactly ... and delivers
them". -/
theorem selection_without_delivery_cex :
    selectBatch cfg3 stBadQueue.queue = [eBadItem]
    ∧ ProcessSyncQueue cfg3 envOk true stBadQueue = Except.ok (stBadQueue, []) :=
  ⟨rfl, rfl⟩

/-- Claim C3 amended: a pass selects exactly the entries with
retryCount < maxRetries, in insertion (creation-time) order, limited to
batchSize, and invokes the remote authority once for each selected entry
whose snapshot decodes, in exactly that order; selected entries whose
snapshot fails to decode are skipped without any delivery. -/
theorem pass_selection_and_delivery_order (cfg : Config) (env : PassEnv) (st : DBState) :
    ProcessSyncQueue cfg env true st =
      Except.ok ((processPassItems cfg env st (selectBatch cfg st.queue)).1,
        ((st.queue.filter (fun q => decide (q.retryCount < cfg.maxRetries))).take
            cfg.syncBatchSize).filterMap
          (fun q => q.taskData.map (fun t => (q.operationType, t)))) := by
  have h2 : ((st.queue.filter (fun q => decide (q.retryCount < cfg.maxRetries))).take
        cfg.syncBatchSize).filterMap
        (fun q => q.taskData.map (fun t => (q.operationType, t)))
      = (processPassItems cfg env st (selectBatch cfg st.queue)).2 :=
    (processPassItems_snd cfg env (selectBatch cfg st.queue) st).symm
  rw [h2]
  rfl

/-- Claim C1 counterexample: delivering eCreate, whose snapshot is not the
most recent mutation of t1 (the newer eUpdate for the same task is still
queued), nevertheless marks t1 `synced`: after that delivery the store's one
task row is synced while eUpdate remains queued. -/
theorem stale_delivery_marks_synced_cex :
    (stepOk stTwo (processSyncItem cfg3 envOk stTwo eCreate).1).queue = [eUpdate]
    ∧ eUpdate.taskId = eCreate.taskId
    ∧ eCreate.createdAt < eUpdate.createdAt
    ∧ (stepOk stTwo (processSyncItem cfg3 envOk stTwo eCreate).1).tasks.map
        Task.syncStatus = [SyncStatus.synced] :=
  ⟨rfl, rfl, by decide, rfl⟩

/-- Claim C1 amended: a successful delivery always marks the snapshot's task
`synced` and removes only the delivered entry, regardless of whether newer
queue entries for the same task remain; the "only for the latest state"
restriction does not hold. -/
theorem delivery_marks_synced_unconditionally (cfg : Config) (env : PassEnv)
    (st : DBState) (item : SyncQueueItem) (task : Task)
    (hdec : item.taskData = some task)
    (hauth : env.authority item.operationType task = (true, none))
    (hfault : env.markFault item = TxFault.ok) :
    (stepOk st (processSyncItem cfg env st item).1).queue
      = st.queue.filter (fun q => decide (q.id ≠ item.id))
    ∧ ∀ t ∈ (stepOk st (processSyncItem cfg env st item).1).tasks,
        t.id = task.id → t.syncStatus = SyncStatus.synced := by
  have hstep : (processSyncItem cfg env st item).1 =
      markAsSynced TxFault.ok env.now st item task := by
    simp [processSyncItem, SyncQueueItem.GetTaskData, hdec, hauth, hfault]
  rw [hstep]
  constructor
  · rfl
  · intro t ht htid
    simp only [stepOk, markAsSynced, updateTaskRow] at ht
    rcases mem_map_upd (fun u => u.id = task.id) _ st.tasks t ht with
      ⟨u, _, _, rfl⟩ | ⟨_, hnp⟩
    · rfl
    · exact absurd htid hnp

/-- Witness for the amended C1 on the concrete two-entry store. -/
theorem delivery_marks_synced_unconditionally_witness :
    (stepOk stTwo (processSyncItem cfg3 envOk stTwo eCreate).1).queue
      = stTwo.queue.filter (fun q => decide (q.id ≠ eCreate.id)) :=
  (delivery_marks_synced_unconditionally cfg3 envOk stTwo eCreate taskA rfl rfl rfl).1

/-- Claim C5: markAsSynced is atomic.  A fault-free run deletes exactly the
delivered queue entry and sets the snapshot's task to `synced` with the fresh
last-synced timestamp; a fault at any of its statements (the task update, the
queue delete, or the commit) yields an error with the caller's store retained
unchanged, so the entry remains queued to be retried. -/
theorem markAsSynced_atomic (now : Nat) (st : DBState) (item : SyncQueueItem)
    (task : Task) :
    (stepOk st (markAsSynced TxFault.ok now st item task)).queue
      = st.queue.filter (fun q => decide (q.id ≠ item.id))
    ∧ (∀ t ∈ (stepOk st (markAsSynced TxFault.ok now st item task)).tasks,
         t.id = task.id →
           t.syncStatus = SyncStatus.synced ∧ t.lastSyncedAt = some now)
    ∧ (∀ fault : TxFault, fault ≠ TxFault.ok →
         stepOk st (markAsSynced fault now st item task) = st
         ∧ ∃ e, markAsSynced fault now st item task = Except.error e) := by
  refine ⟨rfl, ?_, ?_⟩
  · intro t ht htid
    simp only [stepOk, markAsSynced, updateTaskRow] at ht
    rcases mem_map_upd (fun u => u.id = task.id) _ st.tasks t ht with
      ⟨u, _, _, rfl⟩ | ⟨_, hnp⟩
    · exact ⟨rfl, rfl⟩
    · exact absurd htid hnp
  · intro fault hf
    cases fault with
    | ok => exact absurd rfl hf
    | atTaskUpdate => exact ⟨rfl, ⟨_, rfl⟩⟩
    | atQueueDelete => exact ⟨rfl, ⟨_, rfl⟩⟩
    | atCommit => exact ⟨rfl, ⟨_, rfl⟩⟩

/-- Witness for C5: a failed mark-synced write leaves the concrete store
unchanged. -/
theorem markAsSynced_atomic_witness :
    stepOk stTwo (markAsSynced TxFault.atTaskUpdate 10 stTwo eCreate taskA) = stTwo :=
  ((markAsSynced_atomic 10 stTwo eCreate taskA).2.2 TxFault.atTaskUpdate (by decide)).1

/-- Claim C8 counterexample: when no task has ever synced, GetSyncStatus does
not report the last-sync timestamp as absent — it reports the epoch (0), and
its full report is identical to that of a store whose task genuinely synced
at the epoch; inProgress is the literal false. -/
theorem status_epoch_cex :
    stEmptyDB.tasks = []
    ∧ taskEpoch.lastSyncedAt = some 0
    ∧ GetSyncStatus cfg3 stEmptyDB = GetSyncStatus cfg3 stEpochDB
    ∧ (GetSyncStatus cfg3 stEmptyDB).lastSync = 0
    ∧ (GetSyncStatus cfg3 stEmptyDB).inProgress = false :=
  ⟨rfl, rfl, rfl, rfl, rfl⟩

/-- Claim C8 amended: when no task has synced, the status aggregate reports
the epoch sentinel 0 as the last-sync time (absence is not representable in
the report, which is indistinguishable from a genuine sync at the epoch), and
the inProgress flag is the constant false, never reflecting a running pass. -/
theorem status_epoch_sentinel (cfg : Config) (st : DBState)
    (h : ∀ t ∈ st.tasks, t.lastSyncedAt = none) :
    (GetSyncStatus cfg st).lastSync = 0
    ∧ (GetSyncStatus cfg st).inProgress = false := by
  constructor
  · simp [GetSyncStatus, maxLastSynced_eq_none st.tasks h]
  · rfl

/-- Witness for the amended C8 on the empty store. -/
theorem status_epoch_sentinel_witness :
    (GetSyncStatus cfg3 stEmptyDB).lastSync = 0
    ∧ (GetSyncStatus cfg3 stEmptyDB).inProgress = false :=
  status_epoch_sentinel cfg3 stEmptyDB (fun _ ht => nomatch ht)

/-- Claim C4: handleSyncError (recordFailure) sets the entry's row to the
incremented retry count with lastAttempt = now and the stored error message,
retains the entry (the queue keeps exactly the same entry ids), leaves every
task untouched while the new count is still below maxRetries, and marks the
owning task `error` once the new count reaches maxRetries. -/
theorem recordFailure_spec (cfg : Config) (now : Nat) (st : DBState)
    (item : SyncQueueItem) (syncErr : Option String) :
    (∀ q ∈ (stepOk st (handleSyncError cfg now true st item syncErr)).queue,
        q.id = item.id →
          q.retryCount = item.retryCount + 1
          ∧ q.lastAttempt = some now
          ∧ q.errorMessage = some (syncErr.getD "unknown error"))
    ∧ (stepOk st (handleSyncError cfg now true st item syncErr)).queue.map
          (fun q => q.id) = st.queue.map (fun q => q.id)
    ∧ (item.retryCount + 1 < cfg.maxRetries →
        (stepOk st (handleSyncError cfg now true st item syncErr)).tasks = st.tasks)
    ∧ (cfg.maxRetries ≤ item.retryCount + 1 →
        ∀ t ∈ (stepOk st (handleSyncError cfg now true st item syncErr)).tasks,
          t.id = item.taskId → t.syncStatus = SyncStatus.error) := by
  have hnw : ¬((!true : Bool) = true) := by decide
  have hq : (stepOk st (handleSyncError cfg now true st item syncErr)).queue
      = st.queue.map (fun q =>
          if q.id = item.id then
            { q with retryCount := item.retryCount + 1, lastAttempt := some now,
                     errorMessage := some (syncErr.getD "unknown error") }
          else q) := by
    simp only [handleSyncError, SyncQueueItem.IncrementRetry]
    rw [if_neg hnw]
    by_cases hc : cfg.maxRetries ≤ item.retryCount + 1
    · rw [if_pos hc]; rfl
    · rw [if_neg hc]; rfl
  refine ⟨?_, ?_, ?_, ?_⟩
  · intro q hqm hid
    rw [hq] at hqm
    rcases mem_map_upd (fun u => u.id = item.id)
        (fun u => { u with retryCount := item.retryCount + 1, lastAttempt := some now,
                           errorMessage := some (syncErr.getD "unknown error") })
        st.queue q hqm with
      ⟨u, _, _, rfl⟩ | ⟨_, hnp⟩
    · exact ⟨rfl, rfl, rfl⟩
    · exact absurd hid hnp
  · rw [hq]
    exact map_upd_key (fun q => q.id) (fun u => u.id = item.id)
      (fun u => { u with retryCount := item.retryCount + 1, lastAttempt := some now,
                         errorMessage := some (syncErr.getD "unknown error") })
      (fun _ => rfl) st.queue
  · intro hlt
    simp only [handleSyncError, SyncQueueItem.IncrementRetry]
    rw [if_neg hnw, if_neg (Nat.not_le.mpr hlt)]
    rfl
  · intro hle t htm hid
    simp only [handleSyncError, SyncQueueItem.IncrementRetry] at htm
    rw [if_neg hnw, if_pos hle] at htm
    simp only [stepOk, markTaskAsError, updateTaskRow] at htm
    rcases mem_map_upd (fun u => u.id = item.taskId)
        (fun u => { u with syncStatus := SyncStatus.error }) st.tasks t htm with
      ⟨u, _, _, rfl⟩ | ⟨_, hnp⟩
    · rfl
    · exact absurd hid hnp

/-- Witness for C4: a third failure against maxRetries = 3 marks the concrete
task `error`, and the entry is retained (same queue entry ids). -/
theorem recordFailure_spec_witness :
    taskErr.syncStatus = SyncStatus.error
    ∧ (stepOk stFail (handleSyncError cfg3 9 true stFail eFail (some "boom"))).queue.map
        (fun q => q.id) = stFail.queue.map (fun q => q.id) :=
  ⟨(recordFailure_spec cfg3 9 stFail eFail (some "boom")).2.2.2 (by decide) taskErr
      (by decide) rfl,
   (recordFailure_spec cfg3 9 stFail eFail (some "boom")).2.1⟩

/-- Claim C6: every task mutation and its queue insert are atomic.  A fault
at the queue insert leaves the caller's store exactly as before (the task
mutation is rolled back too); more generally every fault outcome leaves the
store either fully unchanged or with both the task change and its queue
entry, and the fault-free create produces a store holding both the new task
row and its `create` queue entry. -/
theorem mutation_enqueue_atomic (now : Nat) (newId : String) (creq : CreateTaskRequest)
    (id : String) (ureq : UpdateTaskRequest) (st : DBState) :
    applyMut st (CreateTask MutFault.atQueueInsert now newId creq st) = st
    ∧ applyMut st (UpdateTask MutFault.atQueueInsert now id ureq st) = st
    ∧ applyDel st (DeleteTask MutFault.atQueueInsert now id st) = st
    ∧ (∀ f : MutFault, applyMut st (CreateTask f now newId creq st) = st
         ∨ CreateTask f now newId creq st = CreateTask MutFault.ok now newId creq st)
    ∧ (∀ f : MutFault, applyMut st (UpdateTask f now id ureq st) = st
         ∨ UpdateTask f now id ureq st = UpdateTask MutFault.ok now id ureq st)
    ∧ (∀ f : MutFault, applyDel st (DeleteTask f now id st) = st
         ∨ DeleteTask f now id st = DeleteTask MutFault.ok now id st)
    ∧ (∀ stC t, CreateTask MutFault.ok now newId creq st = Except.ok (stC, t) →
         (∃ u ∈ stC.tasks, u.id = newId)
         ∧ ∃ q ∈ stC.queue, q.taskId = newId ∧ q.operationType = OperationType.create) := by
  refine ⟨rfl, ?_, ?_, ?_, ?_, ?_, ?_⟩
  · cases h : GetTaskByID st id with
    | error e => simp [UpdateTask, applyMut, h]
    | ok task0 => simp [UpdateTask, applyMut, h]
  · cases h : GetTaskByID st id with
    | error e => simp [DeleteTask, applyDel, h]
    | ok task0 => simp [DeleteTask, applyDel, h]
  · intro f
    cases f with
    | ok => exact Or.inr rfl
    | atTaskWrite => exact Or.inl rfl
    | atQueueInsert => exact Or.inl rfl
    | atCommit => exact Or.inl rfl
  · intro f
    cases f with
    | ok => exact Or.inr rfl
    | atTaskWrite =>
        refine Or.inl ?_
        cases h : GetTaskByID st id with
        | error e => simp [UpdateTask, applyMut, h]
        | ok task0 => simp [UpdateTask, applyMut, h]
    | atQueueInsert =>
        refine Or.inl ?_
        cases h : GetTaskByID st id with
        | error e => simp [UpdateTask, applyMut, h]
        | ok task0 => simp [UpdateTask, applyMut, h]
    | atCommit =>
        refine Or.inl ?_
        cases h : GetTaskByID st id with
        | error e => simp [UpdateTask, applyMut, h]
        | ok task0 => simp [UpdateTask, applyMut, h]
  · intro f
    cases f with
    | ok => exact Or.inr rfl
    | atTaskWrite =>
        refine Or.inl ?_
        cases h : GetTaskByID st id with
        | error e => simp [DeleteTask, applyDel, h]
        | ok task0 => simp [DeleteTask, applyDel, h]
    | atQueueInsert =>
        refine Or.inl ?_
        cases h : GetTaskByID st id with
        | error e => simp [DeleteTask, applyDel, h]
        | ok task0 => simp [DeleteTask, applyDel, h]
    | atCommit =>
        refine Or.inl ?_
        cases h : GetTaskByID st id with
        | error e => simp [DeleteTask, applyDel, h]
        | ok task0 => simp [DeleteTask, applyDel, h]
  · intro stC t h
    have h2 : (AddToQueueTx
        { st with tasks := st.tasks ++ [NewTask newId now creq.title creq.description] }
        (NewTask newId now creq.title creq.description).id OperationType.create
        (NewTask newId now creq.title creq.description) now,
        NewTask newId now creq.title creq.description) = (stC, t) := Except.ok.inj h
    rw [Prod.mk.injEq] at h2
    obtain ⟨h3, h4⟩ := h2
    subst h3
    subst h4
    constructor
    · exact ⟨NewTask newId now creq.title creq.description,
        List.mem_append.mpr (Or.inr (List.mem_singleton.mpr rfl)), rfl⟩
    · exact ⟨NewSyncQueueItem (nextQueueId st.queue) newId OperationType.create
          (NewTask newId now creq.title creq.description) now,
        List.mem_append.mpr (Or.inr (List.mem_singleton.mpr rfl)), rfl, rfl⟩

/-- Witness for C6: the fault-free create on the empty store contains both
the task row and its queue entry. -/
theorem mutation_enqueue_atomic_witness :
    (∃ u ∈ (applyMut stEmptyDB (CreateTask MutFault.ok 7 "n1" creqW stEmptyDB)).tasks,
        u.id = "n1")
    ∧ ∃ q ∈ (applyMut stEmptyDB (CreateTask MutFault.ok 7 "n1" creqW stEmptyDB)).queue,
        q.taskId = "n1" ∧ q.operationType = OperationType.create :=
  (mutation_enqueue_atomic 7 "n1" creqW "n1" ureqW stEmptyDB).2.2.2.2.2.2
    (applyMut stEmptyDB (CreateTask MutFault.ok 7 "n1" creqW stEmptyDB))
    (NewTask "n1" 7 "T" none) rfl

end TaskSync
